import Mathlib

/-!
Shallow embedding of the asynchronous task submission / result-polling slice of
the repository (FastAPI routes in `app/example/routes.py`, Celery configuration
in `app/core/celery.py`, task definitions in `app/example/tasks.py`, and the
singleton helpers in `app/core/celery_utils.py` and `app/core/redis.py`),
together with theorems settling the specification claims about it.
-/

namespace AgentInfra

/-- Task states of the result store (Celery's state strings), §3 of the spec. -/
inductive TaskState where
  | PENDING
  | STARTED
  | RETRY
  | SUCCESS
  | FAILURE
  deriving DecidableEq, Repr

/-- The settings fields consumed by `create_celery_app` (`app/core/config.py`). -/
structure Settings where
  celery_task_always_eager : Bool
  celery_broker_url : String
  celery_result_backend : String
  deriving DecidableEq, Repr

/-- The observable configuration of a Celery application instance: the fields
`create_celery_app` sets on `celery_app.conf`, plus an `instanceId` standing for
Python object identity (each `Celery(...)` construction yields a new object). -/
structure CeleryApp where
  instanceId : Nat
  main : String
  task_always_eager : Bool
  task_eager_propagates : Bool
  broker_url : String
  result_backend : String
  task_acks_late : Bool
  task_reject_on_worker_lost : Bool
  result_expires : Nat
  task_serializer : String
  result_serializer : String
  accept_content : List String
  timezone : String
  enable_utc : Bool
  deriving DecidableEq, Repr

/-- `create_celery_app` from `app/core/celery.py`: builds the app and sets its
configuration.  `fresh` models the identity of the newly constructed object. -/
def create_celery_app (settings : Settings) (fresh : Nat) : CeleryApp :=
  { instanceId := fresh
    main := "agent_infra"
    task_always_eager := settings.celery_task_always_eager
    -- `task_eager_propagates` is set (to True) only in the eager branch;
    -- Celery's default for it is False.
    task_eager_propagates := settings.celery_task_always_eager
    broker_url :=
      if settings.celery_task_always_eager then "memory://"
      else settings.celery_broker_url
    result_backend :=
      if settings.celery_task_always_eager then "cache+memory://"
      else settings.celery_result_backend
    task_acks_late := true
    task_reject_on_worker_lost := true
    result_expires := 3600
    task_serializer := "json"
    result_serializer := "json"
    accept_content := ["json"]
    timezone := "UTC"
    enable_utc := true }

/-- `get_celery_app` from `app/core/celery_utils.py`: lazily-initialized global
singleton.  The global `_celery_app` is passed as explicit state (`none` models
the Python `None` initial value); the call returns the app and the new state. -/
def get_celery_app (state : Option CeleryApp) (settings : Settings) (fresh : Nat) :
    CeleryApp × Option CeleryApp :=
  match state with
  | some app => (app, some app)
  | none =>
      let app := create_celery_app settings fresh
      (app, some app)

/-- The retention window the repository configures:
`celery_app.conf.result_expires = 3600` in `app/core/celery.py`. -/
def result_expires : Nat := 3600

/-- A task meta record held by the result backend: the state together with the
serialized result/info payload (Celery stores the return value on success and
the exception description on failure in the same `result` field). -/
structure StoredMeta where
  state : TaskState
  info : String
  deriving DecidableEq, Repr

/-- A backend entry together with the time it was written, so that the
`result_expires` retention window can be modelled. -/
structure TimedEntry where
  meta : StoredMeta
  writtenAt : Nat
  deriving DecidableEq, Repr

/-- The result store as seen by one `getStatus` call: either available with its
entries at the current time, or unavailable (every query raises). -/
inductive Store where
  | available (now : Nat) (entries : List (String × TimedEntry))
  | unavailable
  deriving DecidableEq, Repr

/-- Backend lookup for a task id: an entry older than the `result_expires`
retention window has been evicted and reads as absent; an absent entry makes
`AsyncResult.state` report PENDING (handled by the caller). -/
def backendGet (now : Nat) (entries : List (String × TimedEntry)) (id : String) :
    Option StoredMeta :=
  match entries.lookup id with
  | some e => if e.writtenAt + result_expires ≤ now then none else some e.meta
  | none => none

/-- `TaskStatusResponse` from `app/example/routes.py`. -/
structure TaskStatusResponse where
  task_id : String
  state : TaskState
  result : Option String := none
  error : Option String := none
  deriving DecidableEq, Repr

/-- The branch structure of `get_task_status` in `app/example/routes.py` that
maps the `AsyncResult` data (`meta`, absent meaning the backend has no entry
and the state reads PENDING) to the client-facing response. -/
def statusResponse (task_id : String) (meta : Option StoredMeta) : TaskStatusResponse :=
  let st : TaskState :=
    match meta with
    | some m => m.state
    | none => TaskState.PENDING
  let base : TaskStatusResponse := { task_id := task_id, state := st }
  match st with
  | TaskState.SUCCESS => { base with result := meta.map StoredMeta.info }
  | TaskState.FAILURE => { base with error := meta.map StoredMeta.info }
  | TaskState.PENDING => base
  | _ => { base with result := meta.map StoredMeta.info }

/-- Outcome of one `GET /example/task/{task_id}` call: the HTTP status code,
the response body when one is produced, and whether the result store was
queried during the call. -/
structure StatusOutcome where
  httpStatus : Nat
  response : Option TaskStatusResponse
  storeQueried : Bool
  deriving DecidableEq, Repr

/-- `get_task_status` from `app/example/routes.py`.  The source performs no
format check on `task_id`: it directly builds an `AsyncResult` and reads its
state from the store.  Any exception during the lookup (e.g. an unavailable
backend) is caught by the blanket `except Exception` and re-raised as
`HTTPException(status_code=400)`. -/
def get_task_status (store : Store) (task_id : String) : StatusOutcome :=
  match store with
  | Store.unavailable =>
      { httpStatus := 400, response := none, storeQueried := true }
  | Store.available now entries =>
      { httpStatus := 200
        response := some (statusResponse task_id (backendGet now entries task_id))
        storeQueried := true }

/-- `RetryPolicy` of §3 of the spec: per-task retry configuration. -/
structure RetryPolicy where
  max_retries : Nat
  base_delay : Nat
  backoff_multiplier : Nat
  max_delay : Nat
  jitter : Bool
  deriving DecidableEq, Repr

/-- The retry configuration of `send_email` in `app/example/tasks.py`:
`max_retries=3`, `retry_backoff=True` (exponential backoff starting at 1 s and
doubling), `retry_backoff_max=600`, `retry_jitter=True`; `autoretry_for`
covers every `Exception`, so every handler error is retryable. -/
def sendEmailPolicy : RetryPolicy :=
  { max_retries := 3
    base_delay := 1
    backoff_multiplier := 2
    max_delay := 600
    jitter := true }

/-- The retry delay before attempt `attempt`, ignoring jitter:
`min(max_delay, base_delay * backoff_multiplier^attempt)` (§4.3 of the spec). -/
def computeDelay (p : RetryPolicy) (attempt : Nat) : Nat :=
  min p.max_delay (p.base_delay * p.backoff_multiplier ^ attempt)

/-- Outcome of one handler attempt as seen by the worker executor: normal
return, a retryable error, a non-retryable error, or a worker crash
mid-execution. -/
inductive AttemptOutcome where
  | ok
  | errRetryable
  | errFatal
  | crash
  deriving DecidableEq, Repr

/-- An observable event of a worker execution: a state written to the result
store, an acknowledgment of the broker message, or a worker crash. -/
inductive WEvent where
  | state (s : TaskState)
  | ack
  | crash
  deriving DecidableEq, Repr

/-- Final broker-side status of the message after an execution. -/
inductive MsgStatus where
  | acked
  | redeliverable
  | inFlight
  deriving DecidableEq, Repr

/-- Modelled from the spec: the Worker Executor loop of §4.3 (the executor
itself is Celery library code, not in `src/`; the repository only configures it
in `app/core/celery.py` and `app/example/tasks.py`).  One invocation is run
attempt by attempt: write STARTED, run the handler (`handler attempt` gives the
attempt's outcome), then SUCCESS, FAILURE, or — while retry budget (`fuel`)
remains — RETRY followed by the next attempt.  With `acksLate = true` the
broker message is acknowledged only once the outcome is terminal; with
`acksLate = false` it is acknowledged on dequeue.  A crash ends the event
sequence immediately. -/
def workerEvents (acksLate : Bool) (handler : Nat → AttemptOutcome) :
    Nat → Nat → List WEvent
  | attempt, fuel =>
    (if acksLate then [] else [WEvent.ack]) ++
    WEvent.state TaskState.STARTED ::
    (match handler attempt, fuel with
     | AttemptOutcome.crash, _ => [WEvent.crash]
     | AttemptOutcome.ok, _ =>
         WEvent.state TaskState.SUCCESS :: (if acksLate then [WEvent.ack] else [])
     | AttemptOutcome.errFatal, _ =>
         WEvent.state TaskState.FAILURE :: (if acksLate then [WEvent.ack] else [])
     | AttemptOutcome.errRetryable, 0 =>
         WEvent.state TaskState.FAILURE :: (if acksLate then [WEvent.ack] else [])
     | AttemptOutcome.errRetryable, f + 1 =>
         WEvent.state TaskState.RETRY :: workerEvents acksLate handler (attempt + 1) f)

/-- A full run of one invocation under a retry policy: the invocation starts
PENDING, then the attempt loop runs with retry budget `p.max_retries`. -/
def workerRun (p : RetryPolicy) (acksLate : Bool) (handler : Nat → AttemptOutcome) :
    List WEvent :=
  WEvent.state TaskState.PENDING :: workerEvents acksLate handler 0 p.max_retries

/-- The sequence of task states written during an execution. -/
def states (es : List WEvent) : List TaskState :=
  es.filterMap fun e =>
    match e with
    | WEvent.state s => some s
    | _ => none

/-- `true` when no acknowledgment occurs before the first terminal state
(SUCCESS or FAILURE) of the event sequence. -/
def noAckBeforeTerminal : List WEvent → Bool
  | [] => true
  | WEvent.ack :: _ => false
  | WEvent.state s :: rest =>
      if s = TaskState.SUCCESS ∨ s = TaskState.FAILURE then true
      else noAckBeforeTerminal rest
  | WEvent.crash :: rest => noAckBeforeTerminal rest

/-- Broker-side fate of the message: an acknowledged message is gone; an
unacknowledged message of a crashed worker becomes redeliverable after the
broker's lease timeout (`task_reject_on_worker_lost = True`); otherwise it is
still in flight. -/
def finalMsgStatus (es : List WEvent) : MsgStatus :=
  if WEvent.ack ∈ es then MsgStatus.acked
  else if WEvent.crash ∈ es then MsgStatus.redeliverable
  else MsgStatus.inFlight

/-- Result dictionary returned by `process_data` in `app/example/tasks.py`. -/
structure ProcessDataResult where
  status : String
  task_id : String
  processed_items : Nat
  result : String
  deriving DecidableEq, Repr

/-- `process_data` from `app/example/tasks.py`: the handler body, with the
Python dict argument modelled as its key/value pairs (`len(data)` is the
number of keys). -/
def process_data (task_id : String) (data : List (String × String)) :
    ProcessDataResult :=
  { status := "success"
    task_id := task_id
    processed_items := data.length
    result := "Processed " ++ toString data.length ++ " items" }

/-- `get_redis_client` from `app/core/redis.py`: raises `RuntimeError` when the
global `_redis_client` (passed as explicit state, client objects modelled by
`Nat` identity) is `None`, and returns the client otherwise. -/
def get_redis_client (state : Option Nat) : Except String Nat :=
  match state with
  | none =>
      Except.error "Redis client not initialized. Ensure lifespan startup has completed."
  | some c => Except.ok c

/-- `init_redis_client` from `app/core/redis.py`: constructs a fresh client
from settings, stores it in the global, and returns it. -/
def init_redis_client (fresh : Nat) (_state : Option Nat) : Nat × Option Nat :=
  (fresh, some fresh)

/-- `close_redis_client` from `app/core/redis.py`: if a client exists it is
closed and the global is reset to `None`; otherwise nothing happens. -/
def close_redis_client (state : Option Nat) : Option Nat :=
  match state with
  | some _ => none
  | none => none

/-! ## Theorems about the Status API (`get_task_status`) -/

/-- C1 counterexample: contrary to the claim, querying the status of the
malformed (empty-string) identifier does not fail with `InvalidIdentifier`
(HTTP 400): the route performs no format check, queries the result store, and
answers HTTP 200 with state PENDING. -/
theorem getStatus_empty_id_counterexample :
    (get_task_status (Store.available 0 []) "").httpStatus = 200 ∧
    (get_task_status (Store.available 0 []) "").storeQueried = true ∧
    (get_task_status (Store.available 0 []) "").response =
      some { task_id := "", state := TaskState.PENDING } :=
  ⟨rfl, rfl, rfl⟩

/-- C1 (amended): `get_task_status` performs no format check on the task
identifier.  A malformed identifier such as the empty string is passed
directly to the result store query (the store is accessed on every call) and,
being unknown to the store, is reported as state PENDING with HTTP 200; HTTP
400 arises only when the store lookup itself raises. -/
theorem getStatus_no_format_check (now : Nat)
    (entries : List (String × TimedEntry)) (h : entries.lookup "" = none) :
    (get_task_status (Store.available now entries) "").httpStatus = 200 ∧
    (get_task_status (Store.available now entries) "").response =
      some { task_id := "", state := TaskState.PENDING } ∧
    ∀ (s : Store) (id : String), (get_task_status s id).storeQueried = true := by
  refine ⟨rfl, ?_, ?_⟩
  · simp [get_task_status, backendGet, h, statusResponse]
  · intro s id
    cases s <;> rfl

/-- Witness for `getStatus_no_format_check` at the empty store. -/
theorem getStatus_no_format_check_witness :
    (get_task_status (Store.available 0 []) "").response =
      some { task_id := "", state := TaskState.PENDING } :=
  (getStatus_no_format_check 0 [] rfl).2.1

/-- C2 counterexample: a SUCCESS result written at time 0 and queried at time
`result_expires` (one hour later) has been evicted; the status call answers
exactly what it answers for an identifier the store never saw — state PENDING.
The "unknown/expired" outcome is not distinct from PENDING. -/
theorem getStatus_expired_counterexample :
    get_task_status
        (Store.available result_expires
          [("task-1", { meta := { state := TaskState.SUCCESS, info := "done" },
                        writtenAt := 0 })]) "task-1" =
      get_task_status (Store.available result_expires []) "task-1" ∧
    (get_task_status
        (Store.available result_expires
          [("task-1", { meta := { state := TaskState.SUCCESS, info := "done" },
                        writtenAt := 0 })]) "task-1").response =
      some { task_id := "task-1", state := TaskState.PENDING } := by
  constructor <;> rfl

/-- C2 (amended): after the fixed retention window (`result_expires = 3600`
seconds, set in `app/core/celery.py`), a status query reports the task as
PENDING — an outcome identical to querying an identifier the store never held.
No distinct "unknown/expired" outcome is produced. -/
theorem getStatus_expired_reports_pending (id : String) (m : StoredMeta)
    (w now : Nat) (h : w + result_expires ≤ now) :
    get_task_status (Store.available now [(id, { meta := m, writtenAt := w })]) id =
      get_task_status (Store.available now []) id ∧
    (get_task_status (Store.available now [(id, { meta := m, writtenAt := w })]) id).response =
      some { task_id := id, state := TaskState.PENDING } := by
  have hl : (List.lookup id [(id, ({ meta := m, writtenAt := w } : TimedEntry))]) =
      some { meta := m, writtenAt := w } := by
    simp [List.lookup]
  constructor <;> simp [get_task_status, backendGet, hl, h, statusResponse]

/-- Witness for `getStatus_expired_reports_pending`: a SUCCESS entry written at
time 0 read one hour later. -/
theorem getStatus_expired_reports_pending_witness :
    (get_task_status
        (Store.available 3600
          [("task-1", { meta := { state := TaskState.SUCCESS, info := "done" },
                        writtenAt := 0 })]) "task-1").response =
      some { task_id := "task-1", state := TaskState.PENDING } :=
  (getStatus_expired_reports_pending "task-1"
    { state := TaskState.SUCCESS, info := "done" } 0 3600 (by decide)).2

/-- C4: the status mapping of `get_task_status` is complete and distinct:
a stored SUCCESS yields `{state: SUCCESS, result: payload}`; FAILURE yields
`{state: FAILURE, error: description}`; a stored PENDING or an
absent-but-not-yet-expired entry yields `{state: PENDING, result: null}`;
STARTED and RETRY yield that state with the intermediate info; the reported
state always equals the stored state (so distinct states give distinct
triples); and for an available store every query answers HTTP 200 with a
response — no stored state and no unknown identifier crashes the API. -/
theorem statusMapping_complete_and_distinct (id : String) (m : StoredMeta)
    (now : Nat) (entries : List (String × TimedEntry)) :
    statusResponse id (some m) =
      (match m.state with
       | TaskState.SUCCESS =>
           { task_id := id, state := TaskState.SUCCESS,
             result := some m.info, error := none }
       | TaskState.FAILURE =>
           { task_id := id, state := TaskState.FAILURE,
             result := none, error := some m.info }
       | TaskState.PENDING =>
           { task_id := id, state := TaskState.PENDING,
             result := none, error := none }
       | s =>
           { task_id := id, state := s, result := some m.info, error := none }) ∧
    statusResponse id none = { task_id := id, state := TaskState.PENDING } ∧
    (statusResponse id (some m)).state = m.state ∧
    (get_task_status (Store.available now entries) id).httpStatus = 200 ∧
    ((get_task_status (Store.available now entries) id).response).isSome = true := by
  obtain ⟨st, info⟩ := m
  refine ⟨?_, rfl, ?_, rfl, rfl⟩ <;> cases st <;> rfl

/-- C5 (code bug): when the result store is unavailable, the blanket
`except Exception` in `get_task_status` converts the infrastructure fault into
`HTTPException(status_code=400)` — a 4xx client error, not the 5xx the design
requires; shown at the concrete request `GET /example/task/abc` and for every
identifier. -/
theorem storeUnavailable_surfaces_as_400 :
    (get_task_status Store.unavailable "abc").httpStatus = 400 ∧
    (∀ id : String, (get_task_status Store.unavailable id).httpStatus = 400) ∧
    ¬ 500 ≤ (get_task_status Store.unavailable "abc").httpStatus :=
  ⟨rfl, fun _ => rfl, by decide⟩

/-! ## Theorems about the Worker Executor model -/

/-- Along any execution, the retry budget bounds the RETRY transitions:
the events of the attempt loop started with budget `fuel` contain at most
`fuel` RETRY states. -/
theorem workerEvents_retry_count_le (acks : Bool) (handler : Nat → AttemptOutcome) :
    ∀ fuel attempt,
      (workerEvents acks handler attempt fuel).count
          (WEvent.state TaskState.RETRY) ≤ fuel := by
  intro fuel
  induction fuel with
  | zero =>
      intro attempt
      cases h : handler attempt <;> cases acks <;>
        simp [workerEvents, h, List.count_cons, List.count_append]
  | succ f ih =>
      intro attempt
      cases h : handler attempt <;> cases acks <;>
        simp [workerEvents, h, List.count_cons, List.count_append] <;>
        exact ih (attempt + 1)

/-- When every attempt raises a retryable error, the attempt loop with budget
`fuel` performs exactly `fuel` RETRY transitions. -/
theorem workerEvents_retry_count_allfail (acks : Bool)
    (handler : Nat → AttemptOutcome)
    (hall : ∀ n, handler n = AttemptOutcome.errRetryable) :
    ∀ fuel attempt,
      (workerEvents acks handler attempt fuel).count
          (WEvent.state TaskState.RETRY) = fuel := by
  intro fuel
  induction fuel with
  | zero =>
      intro attempt
      cases acks <;>
        simp [workerEvents, hall attempt, List.count_cons, List.count_append]
  | succ f ih =>
      intro attempt
      cases acks <;>
        simp [workerEvents, hall attempt, List.count_cons, List.count_append,
          ih (attempt + 1)]

/-- The terminal outcome of an execution: the first terminal state (SUCCESS or
FAILURE) appearing in the event sequence; in the worker model a terminal state
ends the run (only the late acknowledgment may follow it). -/
def terminalOf : List WEvent → Option TaskState
  | [] => none
  | WEvent.state TaskState.SUCCESS :: _ => some TaskState.SUCCESS
  | WEvent.state TaskState.FAILURE :: _ => some TaskState.FAILURE
  | _ :: rest => terminalOf rest

/-- When every attempt raises a retryable error, the attempt loop terminates
with outcome FAILURE. -/
theorem workerEvents_allfail_ends_in_failure (acks : Bool)
    (handler : Nat → AttemptOutcome)
    (hall : ∀ n, handler n = AttemptOutcome.errRetryable) :
    ∀ fuel attempt,
      terminalOf (workerEvents acks handler attempt fuel) =
        some TaskState.FAILURE := by
  intro fuel
  induction fuel with
  | zero =>
      intro attempt
      cases acks <;> simp [workerEvents, hall attempt, terminalOf]
  | succ f ih =>
      intro attempt
      cases acks <;>
        simp [workerEvents, hall attempt, terminalOf] <;>
        exact ih (attempt + 1)

/-- With late acknowledgment (`acksLate = true`), the attempt loop never emits
an acknowledgment before the first terminal state. -/
theorem workerEvents_lateAck_no_early_ack (handler : Nat → AttemptOutcome) :
    ∀ fuel attempt,
      noAckBeforeTerminal (workerEvents true handler attempt fuel) = true := by
  intro fuel
  induction fuel with
  | zero =>
      intro attempt
      cases h : handler attempt <;>
        simp [workerEvents, h, noAckBeforeTerminal]
  | succ f ih =>
      intro attempt
      cases h : handler attempt <;>
        simp [workerEvents, h, noAckBeforeTerminal] <;>
        exact ih (attempt + 1)

/-- With late acknowledgment, an execution that crashes never acknowledged the
broker message. -/
theorem workerEvents_crash_not_acked (handler : Nat → AttemptOutcome) :
    ∀ fuel attempt,
      WEvent.crash ∈ workerEvents true handler attempt fuel →
        WEvent.ack ∉ workerEvents true handler attempt fuel := by
  intro fuel
  induction fuel with
  | zero =>
      intro attempt
      cases h : handler attempt <;> simp [workerEvents, h]
  | succ f ih =>
      intro attempt
      cases h : handler attempt <;> simp [workerEvents, h] <;>
        exact ih (attempt + 1)

/-- C3: under the `send_email` retry policy (`max_retries = 3`, every
exception retryable via `autoretry_for=(Exception,)`), a handler that raises a
retryable error on every attempt reaches the terminal FAILURE outcome after
exactly `max_retries` RETRY transitions; and along every execution whatsoever
the number of RETRY transitions is bounded by `max_retries`. -/
theorem sendEmail_retry_bound (handler : Nat → AttemptOutcome)
    (hall : ∀ n, handler n = AttemptOutcome.errRetryable) :
    (workerRun sendEmailPolicy true handler).count (WEvent.state TaskState.RETRY) =
      sendEmailPolicy.max_retries ∧
    terminalOf (workerRun sendEmailPolicy true handler) = some TaskState.FAILURE ∧
    ∀ h' : Nat → AttemptOutcome,
      (workerRun sendEmailPolicy true h').count (WEvent.state TaskState.RETRY) ≤
        sendEmailPolicy.max_retries := by
  refine ⟨?_, ?_, ?_⟩
  · simpa [workerRun, List.count_cons] using
      workerEvents_retry_count_allfail true handler hall sendEmailPolicy.max_retries 0
  · simpa [workerRun, terminalOf] using
      workerEvents_allfail_ends_in_failure true handler hall sendEmailPolicy.max_retries 0
  · intro h'
    simpa [workerRun, List.count_cons] using
      workerEvents_retry_count_le true h' sendEmailPolicy.max_retries 0

/-- Witness for `sendEmail_retry_bound`: the everywhere-retryable-failing
handler performs exactly 3 RETRY transitions and ends in FAILURE. -/
theorem sendEmail_retry_bound_witness :
    (workerRun sendEmailPolicy true (fun _ => AttemptOutcome.errRetryable)).count
        (WEvent.state TaskState.RETRY) = 3 ∧
    terminalOf (workerRun sendEmailPolicy true (fun _ => AttemptOutcome.errRetryable)) =
      some TaskState.FAILURE :=
  ⟨(sendEmail_retry_bound (fun _ => AttemptOutcome.errRetryable) (fun _ => rfl)).1,
   (sendEmail_retry_bound (fun _ => AttemptOutcome.errRetryable) (fun _ => rfl)).2.1⟩

/-- C7: with the configuration the repository sets
(`task_acks_late = True`, `task_reject_on_worker_lost = True` in
`app/core/celery.py`), no execution acknowledges the broker message before its
outcome is terminal, and an execution that crashes mid-attempt leaves the
message unacknowledged and hence redeliverable after the broker's lease
timeout rather than lost. -/
theorem lateAck_crash_redelivers (settings : Settings) (fresh : Nat)
    (handler : Nat → AttemptOutcome) :
    noAckBeforeTerminal
        (workerRun sendEmailPolicy (create_celery_app settings fresh).task_acks_late
          handler) = true ∧
    (WEvent.crash ∈
        workerRun sendEmailPolicy (create_celery_app settings fresh).task_acks_late
          handler →
      finalMsgStatus
          (workerRun sendEmailPolicy (create_celery_app settings fresh).task_acks_late
            handler) = MsgStatus.redeliverable) := by
  constructor
  · simpa [workerRun, noAckBeforeTerminal] using
      workerEvents_lateAck_no_early_ack handler sendEmailPolicy.max_retries 0
  · intro hcrash
    have hcrash' : WEvent.crash ∈
        workerEvents true handler 0 sendEmailPolicy.max_retries := by
      simpa [workerRun] using hcrash
    have hnoack := workerEvents_crash_not_acked handler sendEmailPolicy.max_retries 0 hcrash'
    simp [finalMsgStatus, workerRun, create_celery_app, hnoack, hcrash']

/-- Witness for `lateAck_crash_redelivers`: a handler that crashes on its first
attempt leaves the message redeliverable. -/
theorem lateAck_crash_redelivers_witness :
    noAckBeforeTerminal
        (workerRun sendEmailPolicy
          (create_celery_app
            { celery_task_always_eager := false,
              celery_broker_url := "redis://localhost:6379/0",
              celery_result_backend := "redis://localhost:6379/0" } 0).task_acks_late
          (fun _ => AttemptOutcome.crash)) = true ∧
    finalMsgStatus
        (workerRun sendEmailPolicy
          (create_celery_app
            { celery_task_always_eager := false,
              celery_broker_url := "redis://localhost:6379/0",
              celery_result_backend := "redis://localhost:6379/0" } 0).task_acks_late
          (fun _ => AttemptOutcome.crash)) = MsgStatus.redeliverable :=
  ⟨(lateAck_crash_redelivers _ 0 (fun _ => AttemptOutcome.crash)).1,
   (lateAck_crash_redelivers _ 0 (fun _ => AttemptOutcome.crash)).2 (by decide)⟩

/-! ## Retry delay, task handlers, and singleton lifecycles -/

/-- C6: the retry delay `min(max_delay, base_delay * backoff_multiplier^n)`
(jitter ignored) is nondecreasing in the attempt number whenever the backoff
multiplier is at least 1, never exceeds `max_delay`, and for the `send_email`
policy never exceeds 600 seconds. -/
theorem computeDelay_monotone_and_bounded (p : RetryPolicy) (n : Nat)
    (h : 1 ≤ p.backoff_multiplier) :
    computeDelay p n ≤ computeDelay p (n + 1) ∧
    computeDelay p n ≤ p.max_delay ∧
    computeDelay sendEmailPolicy n ≤ 600 := by
  refine ⟨?_, Nat.min_le_left _ _, Nat.min_le_left _ _⟩
  exact min_le_min (le_refl _)
    (Nat.mul_le_mul (le_refl _) (Nat.pow_le_pow_right h (Nat.le_succ n)))

/-- Witness for `computeDelay_monotone_and_bounded` at the `send_email` policy
and attempt 0. -/
theorem computeDelay_monotone_and_bounded_witness :
    computeDelay sendEmailPolicy 0 ≤ computeDelay sendEmailPolicy 1 ∧
    computeDelay sendEmailPolicy 0 ≤ 600 :=
  ⟨(computeDelay_monotone_and_bounded sendEmailPolicy 0 (by decide)).1,
   (computeDelay_monotone_and_bounded sendEmailPolicy 0 (by decide)).2.2⟩

/-- C8: `process_data` returns a success result whose `processed_items` equals
the number of keys of the dict argument (the pairs of a Python dict have
pairwise-distinct keys, so the key count is the length of the pair list). -/
theorem process_data_counts_keys (tid : String) (data : List (String × String))
    (h : (data.map Prod.fst).Nodup) :
    (process_data tid data).processed_items = (data.map Prod.fst).length ∧
    (process_data tid data).status = "success" ∧
    (process_data tid data).task_id = tid := by
  refine ⟨?_, rfl, rfl⟩
  simp [process_data]

/-- Witness for `process_data_counts_keys`: the dict
`{"a": 1, "b": 2, "c": 3}` yields `processed_items = 3`. -/
theorem process_data_counts_keys_witness :
    (process_data "t1" [("a", "1"), ("b", "2"), ("c", "3")]).processed_items = 3 :=
  (process_data_counts_keys "t1" [("a", "1"), ("b", "2"), ("c", "3")] (by decide)).1

/-- C9: `get_celery_app` is an idempotent lazily-initialized singleton: a
second call (with any settings and any fresh object identity) returns exactly
the instance and state the first call produced, and after any call the global
state holds the returned (non-`None`) instance. -/
theorem get_celery_app_singleton (s0 : Option CeleryApp) (st st' : Settings)
    (f f' : Nat) :
    (get_celery_app (get_celery_app s0 st f).2 st' f').1 = (get_celery_app s0 st f).1 ∧
    (get_celery_app (get_celery_app s0 st f).2 st' f').2 = (get_celery_app s0 st f).2 ∧
    (get_celery_app s0 st f).2 = some (get_celery_app s0 st f).1 := by
  cases s0 <;> exact ⟨rfl, rfl, rfl⟩

/-- C10: `get_redis_client` errors exactly when the global client is `None`
(before `init_redis_client`, or after `close_redis_client` which always resets
the global to `None`); after a successful `init_redis_client` it returns
exactly the client that init created and stored. -/
theorem get_redis_client_lifecycle (s : Option Nat) (fresh : Nat) :
    ((∃ msg, get_redis_client s = Except.error msg) ↔ s = none) ∧
    get_redis_client (init_redis_client fresh s).2 =
      Except.ok (init_redis_client fresh s).1 ∧
    close_redis_client (init_redis_client fresh s).2 = none ∧
    (∃ msg, get_redis_client (close_redis_client s) = Except.error msg) := by
  refine ⟨?_, rfl, rfl, ?_⟩
  · cases s <;> simp [get_redis_client]
  · cases s <;> exact ⟨_, rfl⟩

end AgentInfra
